import Mathlib

/-!
Shallow embedding of the Intentive backend (`server/app.js`): the provider
adapters (`callGemini`, `callOpenAI`), the request router (`POST /api/chat`),
the health classification (`GET /api/health`) and the intent echo endpoint
(`POST /api/intent`), together with proofs of the specified properties.

JavaScript runtime values that matter to the code (truthiness checks,
`String(...)` coercion, optional chaining) are modelled explicitly; HTTP
effects are modelled by passing the upstream response as a stub function,
and the router records which upstream adapters it invoked.
-/

namespace Intentive

/-- A JavaScript runtime value, as far as the server's logic inspects one:
strings, numbers (integer approximation), booleans, `null`, `undefined`
and objects. -/
inductive JSVal where
  | vStr (s : String)
  | vNum (n : Int)
  | vBool (b : Bool)
  | vNull
  | vUndef
  | vObj (fields : List (String × JSVal))

/-- JavaScript truthiness: empty string, zero, `false`, `null` and
`undefined` are falsy; every object is truthy. -/
def JSVal.truthy : JSVal → Bool
  | .vStr s => s ≠ ""
  | .vNum n => n ≠ 0
  | .vBool b => b
  | .vNull => false
  | .vUndef => false
  | .vObj _ => true

/-- JavaScript `String(...)` coercion, on the values modelled here. -/
def JSVal.toStr : JSVal → String
  | .vStr s => s
  | .vNum n => toString n
  | .vBool b => if b then "true" else "false"
  | .vNull => "null"
  | .vUndef => "undefined"
  | .vObj _ => "[object Object]"

/-- A chat message in the provider-agnostic shape `{ role, content }`,
with both fields known to be strings. -/
structure ChatMessage where
  role : String
  content : String

/-- A raw incoming message object: the `role` field as a string and the
`content` field as an arbitrary runtime value (it may be absent —
`undefined` — or non-string; `callGemini` coerces it). -/
structure JMessage where
  role : String
  content : JSVal

/-- View of a well-formed `ChatMessage` as a raw message object. -/
def ChatMessage.toJMessage (m : ChatMessage) : JMessage :=
  ⟨m.role, .vStr m.content⟩

/-- One part of a Gemini-format content entry: `{ text: ... }`. -/
structure GeminiPart where
  text : String

/-- One entry of the Gemini-format `contents` array:
`{ role, parts: [{ text }] }`. -/
structure GeminiContent where
  role : String
  parts : List GeminiPart

/-- `String(m.content || '')` from `callGemini`: a falsy content becomes
the empty string, any other value is coerced with `String(...)`. -/
def geminiPartText (c : JSVal) : String :=
  (if c.truthy then c else .vStr "").toStr

/-- The `contents` array built by `callGemini`:
`messages.map((m) => ({ role: m.role === 'assistant' ? 'model' : 'user',
parts: [{ text: String(m.content || '') }] }))`. -/
def geminiContents (messages : List JMessage) : List GeminiContent :=
  messages.map fun m =>
    { role := if m.role = "assistant" then "model" else "user"
      parts := [{ text := geminiPartText m.content }] }

/-- A text part of a Gemini response candidate. -/
structure GemRespPart where
  text : String

/-- The `content` object of a Gemini response candidate; its `parts` field
may be absent. -/
structure GemRespContent where
  parts : Option (List GemRespPart)

/-- One candidate of a Gemini response; its `content` field may be absent. -/
structure GemCandidate where
  content : Option GemRespContent

/-- The JSON body of a Gemini response; its `candidates` field may be
absent. -/
structure GeminiData where
  candidates : Option (List GemCandidate)

/-- The optional chain `data?.candidates?.[0]?.content?.parts` from
`callGemini`: `none` models `undefined` at any link of the chain. -/
def geminiFirstParts (data : Option GeminiData) : Option (List GemRespPart) :=
  match data with
  | none => none
  | some d =>
    match d.candidates with
    | none => none
    | some cs =>
      match cs.head? with
      | none => none
      | some c =>
        match c.content with
        | none => none
        | some ct => ct.parts

/-- The reply text computed by `callGemini`:
`data?.candidates?.[0]?.content?.parts?.map((p) => p.text).join('') || '(no content)'`.
Both an `undefined` chain and an empty join are falsy, so both fall back to
the literal `"(no content)"`. -/
def geminiText (data : Option GeminiData) : String :=
  match geminiFirstParts data with
  | none => "(no content)"
  | some ps =>
    let joined := String.join (ps.map GemRespPart.text)
    if joined = "" then "(no content)" else joined

/-- The result of a stubbed upstream `fetch`: the `ok` flag, the HTTP
status and the parsed JSON body. -/
structure FetchResult (α : Type) where
  ok : Bool
  status : Nat
  data : α

/-- An exception raised inside the chat handler: either an adapter's
explicit `throw new Error(\x7bprovider\x7d HTTP \x7bstatus\x7d)` on a
non-success upstream status, or a runtime `TypeError` (e.g. indexing the
first choice of an empty `choices` array). -/
inductive JsError where
  | httpError (provider : String) (status : Nat)
  | typeError

/-- `callGemini`: translates the messages to the Gemini `contents` shape,
posts them to the stubbed upstream, throws `Gemini HTTP <status>` when the
response is not ok, and otherwise normalizes the reply text. -/
def callGemini (upstream : List GeminiContent → FetchResult (Option GeminiData))
    (messages : List JMessage) : Except JsError ChatMessage :=
  let res := upstream (geminiContents messages)
  if res.ok then .ok { role := "assistant", content := geminiText res.data }
  else .error (.httpError "Gemini" res.status)

/-- The request `callOpenAI` sends to the chat-completions endpoint: the
bearer-token header and the JSON body fields. The temperature literal
`0.2` is modelled as the rational `2/10`. -/
structure OpenAIRequest where
  authHeader : String
  model : String
  messages : List JMessage
  temperature : ℚ
  max_tokens : Nat

/-- The request construction inside `callOpenAI`:
`Authorization: Bearer ${OPENAI_API_KEY}` and the body
`{ model: 'gpt-3.5-turbo', messages, temperature: 0.2, max_tokens: 300 }`. -/
def openAIRequest (key : String) (messages : List JMessage) : OpenAIRequest :=
  { authHeader := "Bearer " ++ key
    model := "gpt-3.5-turbo"
    messages := messages
    temperature := 2/10
    max_tokens := 300 }

/-- One choice of an OpenAI chat-completions response. -/
structure OpenAIChoice where
  message : ChatMessage

/-- The JSON body of an OpenAI chat-completions response. -/
structure OpenAIData where
  choices : List OpenAIChoice

/-- `callOpenAI`: posts the messages unchanged to the stubbed upstream,
throws `OpenAI HTTP <status>` when the response is not ok, and otherwise
returns `data.choices[0].message` verbatim (indexing an empty `choices`
array raises a `TypeError`). -/
def callOpenAI (upstream : OpenAIRequest → FetchResult OpenAIData)
    (key : String) (messages : List JMessage) : Except JsError ChatMessage :=
  let res := upstream (openAIRequest key messages)
  if res.ok then
    match res.data.choices.head? with
    | some c => .ok c.message
    | none => .error .typeError
  else .error (.httpError "OpenAI" res.status)

/-- The chat route's Google-selection condition:
`GOOGLE_API_KEY || String(GOOGLE_API_KEY).startsWith('AIza')` — truthiness
of the credential, OR-combined with the `'AIza'` prefix check. -/
def googleSelected (gkey : String) : Bool :=
  (gkey ≠ "" : Bool) || gkey.startsWith "AIza"

/-- The three-way provider decision made by the `POST /api/chat` handler's
if/else-if/else cascade, as the provider tag it attaches to the reply. -/
def chatSelect (gkey okey : String) : String :=
  if googleSelected gkey then "google"
  else if okey ≠ "" then "openai"
  else "none"

/-- The provider classification computed by `GET /api/health`:
`GOOGLE_API_KEY ? 'google' : OPENAI_API_KEY ? 'openai' : 'none'` — a pure
function of the credentials, no network call. -/
def healthProvider (gkey okey : String) : String :=
  if gkey ≠ "" then "google" else if okey ≠ "" then "openai" else "none"

/-- The `messages` field of a chat request body: absent, present but not
an array, or an array of message objects. -/
inductive BodyMessages where
  | absent
  | notArray (v : JSVal)
  | arr (messages : List JMessage)

/-- The fallback reply returned when no credential is configured. -/
def fallbackReply : ChatMessage :=
  { role := "assistant"
    content := "No AI provider configured. Set GOOGLE_API_KEY (Gemini) or OPENAI_API_KEY on the server." }

/-- The externally visible outcome of `POST /api/chat`. -/
inductive ChatOutcome where
  | badRequest
  | success (message : ChatMessage) (provider : String)
  | serverError

/-- The HTTP status code of each chat outcome: 400 for the malformed-body
error, 200 for a reply (including the fallback), 500 for the catch-all
error handler. -/
def ChatOutcome.status : ChatOutcome → Nat
  | .badRequest => 400
  | .success _ _ => 200
  | .serverError => 500

/-- Whether the outcome carries an error body (`{ error: ... }`) rather
than a reply. -/
def ChatOutcome.isErrorBody : ChatOutcome → Bool
  | .badRequest => true
  | .success _ _ => false
  | .serverError => true

/-- The `POST /api/chat` handler: 400 when `messages` is not an array;
otherwise the if/else-if/else provider cascade, with adapter errors caught
and turned into a 500. The second component records, in order, the
upstream adapters that were invoked (call-count instrumentation). -/
def chatRoute (gkey okey : String)
    (geminiUpstream : List GeminiContent → FetchResult (Option GeminiData))
    (openAIUpstream : OpenAIRequest → FetchResult OpenAIData)
    (body : BodyMessages) : ChatOutcome × List String :=
  match body with
  | .absent => (.badRequest, [])
  | .notArray _ => (.badRequest, [])
  | .arr messages =>
    if googleSelected gkey then
      match callGemini geminiUpstream messages with
      | .ok reply => (.success reply "google", ["google"])
      | .error _ => (.serverError, ["google"])
    else if okey ≠ "" then
      match callOpenAI openAIUpstream okey messages with
      | .ok reply => (.success reply "openai", ["openai"])
      | .error _ => (.serverError, ["openai"])
    else
      (.success fallbackReply "none", [])

/-- The externally visible outcome of `POST /api/intent`. -/
inductive IntentOutcome where
  | badRequest
  | received (intent : JSVal)

/-- The HTTP status code of each intent outcome. -/
def IntentOutcome.status : IntentOutcome → Nat
  | .badRequest => 400
  | .received _ => 200

/-- The `POST /api/intent` handler: destructures the `intent` field
(`undefined` when absent), answers 400 when it is falsy and otherwise
echoes it verbatim in `{ status: 'received', intent }`. -/
def intentRoute (intentField : Option JSVal) : IntentOutcome :=
  let intent := intentField.getD .vUndef
  if intent.truthy then .received intent else .badRequest

/-! ## Helper lemmas -/

/-- The `'AIza'` prefix check rejects the empty string, so the OR-combined
selection condition is equivalent to non-emptiness of the credential. -/
lemma googleSelected_eq_nonempty (gkey : String) :
    googleSelected gkey = (gkey ≠ "" : Bool) := by
  by_cases hk : gkey = ""
  · subst hk; decide
  · simp [googleSelected, hk]

/-- On a message whose content is already a string, `String(content || '')`
is the identity. -/
lemma geminiPartText_vStr (s : String) : geminiPartText (.vStr s) = s := by
  by_cases h : s = "" <;>
    simp [geminiPartText, JSVal.truthy, JSVal.toStr, h]

/-! ## Claims -/

/-- C1: for every combination of the two credential strings, the chat
routing decision is total and deterministic — exactly one of
`google`/`openai`/`none` is selected, `google` exactly when the Google
credential is non-empty (precedence when both are present), `openai`
exactly when only the OpenAI credential is non-empty, and `none` exactly
when neither is. -/
theorem chat_selection_total_deterministic (gkey okey : String) :
    (chatSelect gkey okey = "google" ∨ chatSelect gkey okey = "openai" ∨
      chatSelect gkey okey = "none") ∧
    (chatSelect gkey okey = "google" ↔ gkey ≠ "") ∧
    (chatSelect gkey okey = "openai" ↔ (gkey = "" ∧ okey ≠ "")) ∧
    (chatSelect gkey okey = "none" ↔ (gkey = "" ∧ okey = "")) := by
  by_cases hk : gkey = ""
  · subst hk
    have h0 : googleSelected "" = false := by decide
    by_cases ho : okey = "" <;> simp [chatSelect, h0, ho]
  · have h1 : googleSelected gkey = true := by
      rw [googleSelected_eq_nonempty]; simp [hk]
    simp [chatSelect, h1, hk]

/-- C4: the chat route's Google-selection condition (truthiness OR the
`'AIza'` prefix check) is equivalent to "the credential is non-empty", so
the chat route and the pure health classification agree on every
combination of credentials; moreover the upstream adapters the chat route
invokes are exactly the ones its classification names. -/
theorem google_condition_redundant_health_equiv (gkey okey : String) :
    googleSelected gkey = (gkey ≠ "" : Bool) ∧
    chatSelect gkey okey = healthProvider gkey okey ∧
    (∀ gUp oUp messages,
      (chatRoute gkey okey gUp oUp (.arr messages)).2 =
        if chatSelect gkey okey = "none" then [] else [chatSelect gkey okey]) := by
  refine ⟨googleSelected_eq_nonempty gkey, ?_, ?_⟩
  · by_cases hk : gkey = ""
    · subst hk
      have h0 : googleSelected "" = false := by decide
      simp [chatSelect, healthProvider, h0]
    · have h1 : googleSelected gkey = true := by
        rw [googleSelected_eq_nonempty]; simp [hk]
      simp [chatSelect, healthProvider, h1, hk]
  · intro gUp oUp messages
    by_cases hk : gkey = ""
    · subst hk
      have h0 : googleSelected "" = false := by decide
      by_cases ho : okey = ""
      · simp [chatRoute, chatSelect, h0, ho]
      · cases hcall : callOpenAI oUp okey messages <;>
          simp [chatRoute, chatSelect, h0, ho, hcall]
    · have h1 : googleSelected gkey = true := by
        rw [googleSelected_eq_nonempty]; simp [hk]
      cases hcall : callGemini gUp messages <;>
        simp [chatRoute, chatSelect, h1, hcall]

/-- C5: the OpenAI-shaped translation passes the message sequence through
unchanged (identity on role/content), with the credential as a bearer
token, the fixed model identifier, temperature `0.2` and a 300-token
output cap. -/
theorem openai_request_identity (key : String) (messages : List JMessage) :
    (openAIRequest key messages).messages = messages ∧
    (openAIRequest key messages).authHeader = "Bearer " ++ key ∧
    (openAIRequest key messages).model = "gpt-3.5-turbo" ∧
    (openAIRequest key messages).temperature = 2/10 ∧
    (openAIRequest key messages).max_tokens = 300 :=
  ⟨rfl, rfl, rfl, rfl, rfl⟩

/-- C2: on every non-empty sequence of ChatMessages, the Google-shaped
translation preserves length and order, maps role `assistant` to `model`
and every other role to `user`, and carries each original content as the
text of a single part. -/
theorem gemini_translation_shape (ms : List ChatMessage) (h : ms ≠ []) :
    geminiContents (ms.map ChatMessage.toJMessage) =
      ms.map (fun m =>
        { role := if m.role = "assistant" then "model" else "user"
          parts := [{ text := m.content }] }) ∧
    (geminiContents (ms.map ChatMessage.toJMessage)).length = ms.length := by
  constructor
  · simp [geminiContents, List.map_map, Function.comp,
      ChatMessage.toJMessage, geminiPartText_vStr]
  · simp [geminiContents]

/-- Witness for C2 at a concrete three-message conversation covering the
`system`, `user` and `assistant` roles. -/
theorem gemini_translation_shape_witness :
    geminiContents
        ([⟨"system", "be brief"⟩, ⟨"user", "hi"⟩, ⟨"assistant", "hello"⟩].map
          ChatMessage.toJMessage) =
      [{ role := "user", parts := [{ text := "be brief" }] },
       { role := "user", parts := [{ text := "hi" }] },
       { role := "model", parts := [{ text := "hello" }] }] ∧
    (geminiContents
        ([⟨"system", "be brief"⟩, ⟨"user", "hi"⟩, ⟨"assistant", "hello"⟩].map
          ChatMessage.toJMessage)).length = 3 := by
  have h := gemini_translation_shape
    [⟨"system", "be brief"⟩, ⟨"user", "hi"⟩, ⟨"assistant", "hello"⟩]
    (List.cons_ne_nil _ _)
  exact ⟨h.1.trans rfl, h.2.trans rfl⟩

/-- C3 counterexample: a successful response whose first candidate has one
part with empty text. The parts exist and their concatenation is `""`,
yet the normalized content is the literal `"(no content)"`, not the
concatenation — refuting both "content equals the concatenation" and
"`(no content)` exactly when no candidate or no parts exist". -/
theorem gemini_extract_claim_counterexample :
    geminiFirstParts (some ⟨some [⟨some ⟨some [⟨""⟩]⟩⟩]⟩) = some [⟨""⟩] ∧
    String.join (([⟨""⟩] : List GemRespPart).map GemRespPart.text) = "" ∧
    geminiText (some ⟨some [⟨some ⟨some [⟨""⟩]⟩⟩]⟩) = "(no content)" ∧
    ("(no content)" : String) ≠ "" :=
  ⟨rfl, rfl, by decide, by decide⟩

/-- C3 amended: the normalized content equals the concatenation of the
first candidate's text parts whenever that concatenation is non-empty, and
is the literal `"(no content)"` both when no candidate/parts exist and
when the concatenation is empty. -/
theorem gemini_extract_amended (data : Option GeminiData) :
    (geminiFirstParts data = none → geminiText data = "(no content)") ∧
    (∀ ps, geminiFirstParts data = some ps →
      String.join (ps.map GemRespPart.text) ≠ "" →
      geminiText data = String.join (ps.map GemRespPart.text)) ∧
    (∀ ps, geminiFirstParts data = some ps →
      String.join (ps.map GemRespPart.text) = "" →
      geminiText data = "(no content)") := by
  refine ⟨fun h => ?_, fun ps h hne => ?_, fun ps h he => ?_⟩
  · unfold geminiText; rw [h]
  · unfold geminiText; rw [h]; simp [hne]
  · unfold geminiText; rw [h]; simp [he]

/-- Witness for C3's amended statement: the spec's stubbed upstream with
two text parts `"foo"` and `"bar"` normalizes to `"foobar"`. -/
theorem gemini_extract_amended_witness :
    geminiText (some ⟨some [⟨some ⟨some [⟨"foo"⟩, ⟨"bar"⟩]⟩⟩]⟩) = "foobar" := by
  have h := (gemini_extract_amended
      (some ⟨some [⟨some ⟨some [⟨"foo"⟩, ⟨"bar"⟩]⟩⟩]⟩)).2.1
    [⟨"foo"⟩, ⟨"bar"⟩] rfl (by decide)
  exact h.trans (by decide)

/-- C10: the Google-shaped translation is total on message content — every
message yields exactly one part whose text is a string, and every falsy
content (absent, `null`, empty string, `0`, `false`) maps to the empty
string. -/
theorem gemini_content_totality (messages : List JMessage) :
    geminiContents messages =
      messages.map (fun m =>
        { role := if m.role = "assistant" then "model" else "user"
          parts := [{ text := geminiPartText m.content }] }) ∧
    (∀ c : JSVal, c.truthy = false → geminiPartText c = "") := by
  refine ⟨rfl, fun c h => ?_⟩
  simp [geminiPartText, h, JSVal.toStr]

/-- Witness for C10 at a message with absent content and at `null`, `0`,
`false` and empty-string contents. -/
theorem gemini_content_totality_witness :
    geminiContents [⟨"user", .vUndef⟩] =
      [{ role := "user", parts := [{ text := "" }] }] ∧
    geminiPartText .vNull = "" ∧
    geminiPartText (.vNum 0) = "" ∧
    geminiPartText (.vBool false) = "" ∧
    geminiPartText (.vStr "") = "" := by
  have h := gemini_content_totality [⟨"user", .vUndef⟩]
  exact ⟨h.1.trans rfl, h.2 .vNull rfl, h.2 (.vNum 0) (by decide),
    h.2 (.vBool false) rfl, h.2 (.vStr "") (by decide)⟩

/-- C6: when the body's `messages` field is missing or not an array, the
chat route answers 400 with an error body and invokes no upstream adapter,
whatever the credentials are. -/
theorem chat_malformed_request (gkey okey : String)
    (gUp : List GeminiContent → FetchResult (Option GeminiData))
    (oUp : OpenAIRequest → FetchResult OpenAIData) (body : BodyMessages)
    (h : body = .absent ∨ ∃ v, body = .notArray v) :
    chatRoute gkey okey gUp oUp body = (.badRequest, []) ∧
    (chatRoute gkey okey gUp oUp body).1.status = 400 ∧
    (chatRoute gkey okey gUp oUp body).1.isErrorBody = true := by
  rcases h with h | ⟨v, h⟩ <;> subst h <;> exact ⟨rfl, rfl, rfl⟩

/-- Witness for C6: the spec's `{messages: "not-an-array"}` request, with
both credentials configured and instrumented upstreams. -/
theorem chat_malformed_request_witness :
    chatRoute "AIzaG" "sk-test" (fun _ => ⟨true, 200, none⟩)
        (fun _ => ⟨true, 200, ⟨[]⟩⟩) (.notArray (.vStr "not-an-array")) =
      (.badRequest, []) ∧
    (chatRoute "AIzaG" "sk-test" (fun _ => ⟨true, 200, none⟩)
        (fun _ => ⟨true, 200, ⟨[]⟩⟩) (.notArray (.vStr "not-an-array"))).1.status = 400 ∧
    (chatRoute "AIzaG" "sk-test" (fun _ => ⟨true, 200, none⟩)
        (fun _ => ⟨true, 200, ⟨[]⟩⟩)
        (.notArray (.vStr "not-an-array"))).1.isErrorBody = true :=
  chat_malformed_request "AIzaG" "sk-test" _ _ _ (Or.inr ⟨_, rfl⟩)

/-- C7: when the selected provider's upstream response has `ok = false`,
the adapter raises an error carrying the upstream status, and the chat
route answers 500 with a generic error body — never the provider-`none`
fallback. -/
theorem chat_upstream_http_error (gkey okey : String)
    (gUp : List GeminiContent → FetchResult (Option GeminiData))
    (oUp : OpenAIRequest → FetchResult OpenAIData) (messages : List JMessage) :
    (googleSelected gkey = true →
      (gUp (geminiContents messages)).ok = false →
      callGemini gUp messages =
        .error (.httpError "Gemini" (gUp (geminiContents messages)).status) ∧
      chatRoute gkey okey gUp oUp (.arr messages) = (.serverError, ["google"]) ∧
      ChatOutcome.serverError.status = 500 ∧
      ChatOutcome.serverError.isErrorBody = true ∧
      (chatRoute gkey okey gUp oUp (.arr messages)).1 ≠
        .success fallbackReply "none") ∧
    (googleSelected gkey = false → okey ≠ "" →
      (oUp (openAIRequest okey messages)).ok = false →
      callOpenAI oUp okey messages =
        .error (.httpError "OpenAI" (oUp (openAIRequest okey messages)).status) ∧
      chatRoute gkey okey gUp oUp (.arr messages) = (.serverError, ["openai"]) ∧
      ChatOutcome.serverError.status = 500 ∧
      ChatOutcome.serverError.isErrorBody = true ∧
      (chatRoute gkey okey gUp oUp (.arr messages)).1 ≠
        .success fallbackReply "none") := by
  constructor
  · intro hsel hok
    have hcall : callGemini gUp messages =
        .error (.httpError "Gemini" (gUp (geminiContents messages)).status) := by
      simp [callGemini, hok]
    have hroute : chatRoute gkey okey gUp oUp (.arr messages) =
        (.serverError, ["google"]) := by
      simp [chatRoute, hsel, hcall]
    refine ⟨hcall, hroute, rfl, rfl, ?_⟩
    rw [hroute]; simp
  · intro hsel ho hok
    have hcall : callOpenAI oUp okey messages =
        .error (.httpError "OpenAI" (oUp (openAIRequest okey messages)).status) := by
      simp [callOpenAI, hok]
    have hroute : chatRoute gkey okey gUp oUp (.arr messages) =
        (.serverError, ["openai"]) := by
      simp [chatRoute, hsel, ho, hcall]
    refine ⟨hcall, hroute, rfl, rfl, ?_⟩
    rw [hroute]; simp

/-- Witness for C7: a Google credential with a stubbed upstream returning
HTTP 500 yields a 500 outcome, not the fallback. -/
theorem chat_upstream_http_error_witness :
    callGemini (fun _ => ⟨false, 500, none⟩) [] =
      .error (.httpError "Gemini" 500) ∧
    chatRoute "AIzaG" "" (fun _ => ⟨false, 500, none⟩)
        (fun _ => ⟨true, 200, ⟨[]⟩⟩) (.arr []) = (.serverError, ["google"]) ∧
    ChatOutcome.serverError.status = 500 ∧
    ChatOutcome.serverError.isErrorBody = true ∧
    (chatRoute "AIzaG" "" (fun _ => ⟨false, 500, none⟩)
        (fun _ => ⟨true, 200, ⟨[]⟩⟩) (.arr [])).1 ≠
      .success fallbackReply "none" :=
  (chat_upstream_http_error "AIzaG" "" (fun _ => ⟨false, 500, none⟩)
      (fun _ => ⟨true, 200, ⟨[]⟩⟩) []).1 (by decide) rfl

/-- C8: with neither credential configured, any valid messages array gets
a 200 reply tagged `provider = "none"` carrying the fixed fallback
content, and no upstream adapter is invoked. -/
theorem chat_no_provider_fallback (gkey okey : String)
    (gUp : List GeminiContent → FetchResult (Option GeminiData))
    (oUp : OpenAIRequest → FetchResult OpenAIData) (messages : List JMessage)
    (hg : gkey = "") (ho : okey = "") :
    chatRoute gkey okey gUp oUp (.arr messages) =
      (.success fallbackReply "none", []) ∧
    (ChatOutcome.success fallbackReply "none").status = 200 ∧
    fallbackReply.role = "assistant" ∧
    fallbackReply.content =
      "No AI provider configured. Set GOOGLE_API_KEY (Gemini) or OPENAI_API_KEY on the server." := by
  subst hg ho
  have h0 : googleSelected "" = false := by decide
  exact ⟨by simp [chatRoute, h0], rfl, rfl, rfl⟩

/-- Witness for C8 at a concrete one-message conversation. -/
theorem chat_no_provider_fallback_witness :
    chatRoute "" "" (fun _ => ⟨true, 200, none⟩) (fun _ => ⟨true, 200, ⟨[]⟩⟩)
        (.arr [⟨"user", .vStr "hello"⟩]) = (.success fallbackReply "none", []) ∧
    (ChatOutcome.success fallbackReply "none").status = 200 ∧
    fallbackReply.role = "assistant" ∧
    fallbackReply.content =
      "No AI provider configured. Set GOOGLE_API_KEY (Gemini) or OPENAI_API_KEY on the server." :=
  chat_no_provider_fallback "" "" _ _ [⟨"user", .vStr "hello"⟩] rfl rfl

/-- C9 counterexample: a body whose `intent` field is present but falsy
(`false`) is rejected with 400, refuting "400 if and only if the `intent`
field is missing". -/
theorem intent_missing_iff_counterexample :
    intentRoute (some (.vBool false)) = .badRequest ∧
    (some (JSVal.vBool false) : Option JSVal) ≠ none :=
  ⟨rfl, by simp⟩

/-- C9 amended: `POST /api/intent` answers 400 exactly when the `intent`
field is missing or falsy; any truthy intent is echoed back verbatim with
200. -/
theorem intent_route_amended (intentField : Option JSVal) :
    (intentRoute intentField = .badRequest ↔
      (intentField.getD .vUndef).truthy = false) ∧
    (intentField = none → intentRoute intentField = .badRequest) ∧
    (∀ v, intentField = some v → v.truthy = true →
      intentRoute intentField = .received v ∧
      (intentRoute intentField).status = 200) := by
  refine ⟨?_, fun h => ?_, fun v h hv => ?_⟩
  · cases ht : (intentField.getD .vUndef).truthy <;> simp [intentRoute, ht]
  · subst h; rfl
  · subst h
    have : intentRoute (some v) = .received v := by simp [intentRoute, hv]
    exact ⟨this, by rw [this]; rfl⟩

/-- Witness for C9's amended statement at a concrete structured intent
object and at an absent field. -/
theorem intent_route_amended_witness :
    intentRoute (some (.vObj [("type", .vStr "swap")])) =
      .received (.vObj [("type", .vStr "swap")]) ∧
    intentRoute none = .badRequest :=
  ⟨((intent_route_amended (some (.vObj [("type", .vStr "swap")]))).2.2 _ rfl
      rfl).1,
    (intent_route_amended none).2.1 rfl⟩

end Intentive
